import Mathlib

/-!
Shallow embedding of the invoice lifecycle / payment reconciliation core of
the client-invoice-management-portal repository.

The embedded code lives in:
  * backend/src/routes/projects.ts   — the Stripe webhook route and its four
    event handlers (handlePaymentSuccess, handlePaymentFailure,
    handlePaymentCancellation, handleCheckoutSessionCompleted);
  * backend/src/routes/invoices.ts   — invoice CRUD, calculateTotal,
    PUT /:id (update), POST / (create), PATCH /:id/pay (manual mark-paid);
  * backend/src/services/stripeService.ts — processWebhookEvent,
    verifyWebhookSignature, formatAmount, createPaymentLink.

Database tables (backend/src/db/schema.ts) are modelled as lists of records
inside `DBState`; drizzle `update ... where eq(id, x)` becomes a `List.map`
that rewrites the matching row, `select ... limit 1` becomes `List.find?`.
Email dispatch (emailService.sendPaymentConfirmationEmail) is modelled as an
append-only log of `ConfirmationEmail` records returned by each operation.
Monetary values stored as decimal strings / JS numbers in the source are
modelled as exact rationals; Stripe amounts (smallest currency unit) as `Int`.
A thrown JS exception is an `Except.error`; the webhook route's try/catch is
the `Except` case split at the end of `stripeWebhookRoute`.
-/

namespace Portal

/-- A row of the `invoices` table (backend/src/db/schema.ts): id, client_id,
user_id, invoice_number, issue/due dates, total_amount (decimal string,
modelled as ℚ), currency (default 'PHP'), status (varchar, default 'draft'),
free-text notes. -/
structure Invoice where
  id : Nat
  clientId : Nat
  userId : Nat
  invoiceNumber : String
  issueDate : String
  dueDate : String
  totalAmount : ℚ
  currency : String
  status : String
  notes : Option String
  deriving Repr, DecidableEq

/-- A row of the `invoice_items` table: belongs to one invoice; quantity,
unit_price and the cached line total are decimal strings, modelled as ℚ. -/
structure InvoiceItem where
  invoiceId : Nat
  description : String
  quantity : ℚ
  unitPrice : ℚ
  total : ℚ
  deriving Repr, DecidableEq

/-- A row of the `clients` table (the fields the embedded routes read). -/
structure Client where
  id : Nat
  userId : Nat
  clientName : String
  email : Option String
  deriving Repr, DecidableEq

/-- A row of the `projects` table (the fields the embedded routes read). -/
structure Project where
  id : Nat
  clientId : Nat
  currency : String
  deriving Repr, DecidableEq

/-- The persistent database state touched by the embedded routes. -/
structure DBState where
  invoices : List Invoice
  invoiceItems : List InvoiceItem
  clients : List Client
  projects : List Project
  deriving Repr, DecidableEq

/-- One call to emailService.sendPaymentConfirmationEmail, recording the
payload fields the routes fill in. -/
structure ConfirmationEmail where
  recipient : String
  invoiceNumber : String
  clientName : String
  amountPaid : String
  paymentMethod : String
  currency : String
  deriving Repr, DecidableEq

/-- `select().from(invoices).where(eq(invoices.id, iid)).limit(1)`. -/
def findInvoice (st : DBState) (iid : Nat) : Option Invoice :=
  st.invoices.find? (fun inv => inv.id == iid)

/-- `db.update(invoices).set({status}).where(eq(invoices.id, iid))`:
rewrite the status of the matching row, leave every other row alone. -/
def setInvoiceStatus (st : DBState) (iid : Nat) (s : String) : DBState :=
  { st with
    invoices := st.invoices.map
      (fun inv => if inv.id == iid then { inv with status := s } else inv) }

/-- The join `invoices innerJoin clients on invoices.clientId = clients.id
where invoices.id = iid and clients.userId = userId limit 1` used by the
invoice routes for the ownership check. -/
def findOwnedInvoice (st : DBState) (userId iid : Nat) :
    Option (Invoice × Client) :=
  match findInvoice st iid with
  | none => none
  | some inv =>
    match st.clients.find? (fun c => c.id == inv.clientId) with
    | none => none
    | some c => if c.userId == userId then some (inv, c) else none

/-- The invoice items currently stored for invoice `iid`. -/
def itemsOf (st : DBState) (iid : Nat) : List InvoiceItem :=
  st.invoiceItems.filter (fun it => it.invoiceId == iid)

/-- The currencies of the client's projects, in table order. -/
def clientProjectCurrencies (st : DBState) (clientId : Nat) : List String :=
  (st.projects.filter (fun p => p.clientId == clientId)).map (fun p => p.currency)

/-- The currency lookup repeated in the /:id/pay, /:id/send and /:id/remind
routes of invoices.ts: `select().from(projects).where(eq(projects.clientId,
client.id)).limit(1)`, then `projectData.length > 0 ? projectData[0].currency
: 'USD'` — the first project found for the client, or 'USD'. -/
def resolveFirstProjectCurrency (st : DBState) (clientId : Nat) : String :=
  match st.projects.find? (fun p => p.clientId == clientId) with
  | some p => p.currency
  | none => "USD"

/-- Modelled from the spec: the Currency Resolver policy of spec §4.1, "use
the majority currency among the client's projects, default to a configured
fallback if none exist". There is no such majority computation anywhere in
the source; this definition exists only to compare the spec's policy with the
code's actual first-project lookup. Picks the currency with the greatest
count among `currencies` (earliest listed wins ties), or `fallback` when the
list is empty. -/
def majorityCurrencySpec (currencies : List String) (fallback : String) : String :=
  match currencies with
  | [] => fallback
  | c0 :: _ =>
    currencies.foldl
      (fun best c =>
        if currencies.count c > currencies.count best then c else best) c0

/-- Model of StripeService.formatAmount: `Intl.NumberFormat('en-US',
{style:'currency', currency}).format(amount/100)` — renders the amount in
main units tagged with the upper-cased currency code. The exact locale
rendering is abstracted, keeping the (currency, cents) information. -/
def formatAmount (amount : Int) (currency : String) : String :=
  currency.toUpper ++ " cents:" ++ toString amount

/-- The `event.data.object` payload (payment intent or checkout session):
`metadata.invoice_id` after parseInt (none = absent or unparsable), the
intent id and status, `amount` / `amount_total` in the smallest currency
unit, and the currency code ("" models an absent session currency). -/
structure StripeObject where
  metadataInvoiceId : Option Nat
  paymentIntentId : String
  objStatus : String
  amount : Int
  currency : String
  amountTotal : Int
  deriving Repr, DecidableEq

/-- StripeWebhookEvent of stripeService.ts: id, type, data.object. -/
structure StripeWebhookEvent where
  id : String
  type : String
  data : StripeObject
  deriving Repr, DecidableEq

/-- The normalized record returned by StripeService.processWebhookEvent. -/
structure WebhookData where
  type : String
  invoiceId : Option Nat
  paymentIntentId : String
  status : String
  amount : Int
  currency : String
  deriving Repr, DecidableEq

/-- StripeService.processWebhookEvent: projects the payment-intent fields of
`event.data.object` into the provider-agnostic shape. -/
def processWebhookEvent (event : StripeWebhookEvent) : WebhookData :=
  { type := event.type
    invoiceId := event.data.metadataInvoiceId
    paymentIntentId := event.data.paymentIntentId
    status := event.data.objStatus
    amount := event.data.amount
    currency := event.data.currency }

/-- The email block of handlePaymentSuccess (projects.ts): re-read the
invoice left-joined with its client from the post-update state and, when the
client has an email address, send one payment-confirmation email with
`formatAmount(event.amount, event.currency)`, payment method 'Credit Card'
and currency PHP-or-USD. Email failures are swallowed by the source's inner
try/catch, so dispatch never fails here. -/
def successEmails (st : DBState) (iid : Nat) (wd : WebhookData) :
    List ConfirmationEmail :=
  match findInvoice st iid with
  | none => []
  | some inv =>
    match st.clients.find? (fun c => c.id == inv.clientId) with
    | none => []
    | some c =>
      match c.email with
      | none => []
      | some addr =>
        [{ recipient := addr
           invoiceNumber := inv.invoiceNumber
           clientName := c.clientName
           amountPaid := formatAmount wd.amount wd.currency
           paymentMethod := "Credit Card"
           currency := if wd.currency.toUpper == "PHP" then "PHP" else "USD" }]

/-- handlePaymentSuccess of projects.ts: if the event carries no invoice id,
return with no effect; otherwise unconditionally set the invoice's status to
'paid' (no current-status check, no amount or currency comparison, no
processed-event log), then run the email block on the updated state.
`dbFail` models the database update throwing; the thrown error propagates
(`Except.error`). -/
def handlePaymentSuccess (dbFail : Bool) (st : DBState) (wd : WebhookData) :
    Except String (DBState × List ConfirmationEmail) :=
  match wd.invoiceId with
  | none => .ok (st, [])
  | some iid =>
    if dbFail then .error "db update failed" else
    let st1 := setInvoiceStatus st iid "paid"
    .ok (st1, successEmails st1 iid wd)

/-- handlePaymentFailure of projects.ts: if the event carries an invoice id,
unconditionally set that invoice's status to 'overdue' (regardless of its
current status — even 'paid'); the subsequent select has no effect and no
email is sent. -/
def handlePaymentFailure (dbFail : Bool) (st : DBState) (wd : WebhookData) :
    Except String DBState :=
  match wd.invoiceId with
  | none => .ok st
  | some iid =>
    if dbFail then .error "db update failed" else
    .ok (setInvoiceStatus st iid "overdue")

/-- handlePaymentCancellation of projects.ts: if the event carries an invoice
id, unconditionally set that invoice's status to 'pending' (a value outside
the draft/sent/paid/overdue/cancelled vocabulary used elsewhere). -/
def handlePaymentCancellation (dbFail : Bool) (st : DBState) (wd : WebhookData) :
    Except String DBState :=
  match wd.invoiceId with
  | none => .ok st
  | some iid =>
    if dbFail then .error "db update failed" else
    .ok (setInvoiceStatus st iid "pending")

/-- The email block of handleCheckoutSessionCompleted (projects.ts):
confirmation email with amount rendered as
`(currency?.toUpperCase() || 'USD') + ' ' + (amount_total/100).toFixed(2)`
and payment method 'Payment Link'. An empty `currency` models an absent
session currency. -/
def checkoutEmails (st : DBState) (iid : Nat) (event : StripeWebhookEvent) :
    List ConfirmationEmail :=
  match findInvoice st iid with
  | none => []
  | some inv =>
    match st.clients.find? (fun c => c.id == inv.clientId) with
    | none => []
    | some c =>
      match c.email with
      | none => []
      | some addr =>
        [{ recipient := addr
           invoiceNumber := inv.invoiceNumber
           clientName := c.clientName
           amountPaid :=
             (if event.data.currency == "" then "USD"
              else event.data.currency.toUpper) ++ " " ++
             toString event.data.amountTotal ++ "/100"
           paymentMethod := "Payment Link"
           currency :=
             if event.data.currency.toUpper == "PHP" then "PHP" else "USD" }]

/-- handleCheckoutSessionCompleted of projects.ts: reads
`session.metadata.invoice_id`; if present, unconditionally sets the invoice's
status to 'paid' (no amount_total check against the invoice total), then
runs the email block on the updated state. -/
def handleCheckoutSessionCompleted (dbFail : Bool) (st : DBState)
    (event : StripeWebhookEvent) :
    Except String (DBState × List ConfirmationEmail) :=
  match event.data.metadataInvoiceId with
  | none => .ok (st, [])
  | some iid =>
    if dbFail then .error "db update failed" else
    let st1 := setInvoiceStatus st iid "paid"
    .ok (st1, checkoutEmails st1 iid event)

/-- Outcome of StripeService.verifyWebhookSignature on the raw body and the
stripe-signature header: the decoded event, or the thrown verification
error. The cryptographic check itself (stripe.webhooks.constructEvent with
the webhook secret) is external to the repository, so the route is embedded
over its outcome. -/
inductive VerifyResult where
  | ok (event : StripeWebhookEvent)
  | fail (msg : String)
  deriving Repr, DecidableEq

/-- Observable outcome of one HTTP request: response status code, resulting
database state, and the confirmation emails dispatched during the request. -/
structure RouteResult where
  status : Nat
  state : DBState
  emails : List ConfirmationEmail
  deriving Repr, DecidableEq

/-- POST /api/webhooks/stripe (projects.ts): if the stripe-signature header
is missing, respond 400 before anything else. Otherwise verify the signature
over the raw body (`verify` is the outcome of that call); a verification
failure throws and is caught by the route's try/catch, responding 400 with
nothing else done. On success, normalize the event and dispatch on
event.type to the four handlers (any other type is ignored); a handler throw
is caught by the same try/catch and also answers 400 (there is no 500 path
in this route). A completed dispatch answers 200. -/
def stripeWebhookRoute (dbFail : Bool) (st : DBState)
    (signature : Option String) (verify : VerifyResult) : RouteResult :=
  match signature with
  | none => { status := 400, state := st, emails := [] }
  | some _ =>
    match verify with
    | .fail _ => { status := 400, state := st, emails := [] }
    | .ok event =>
      let wd := processWebhookEvent event
      let r : Except String (DBState × List ConfirmationEmail) :=
        if event.type == "payment_intent.succeeded" then
          handlePaymentSuccess dbFail st wd
        else if event.type == "payment_intent.payment_failed" then
          (handlePaymentFailure dbFail st wd).map (fun s => (s, []))
        else if event.type == "payment_intent.canceled" then
          (handlePaymentCancellation dbFail st wd).map (fun s => (s, []))
        else if event.type == "checkout.session.completed" then
          handleCheckoutSessionCompleted dbFail st event
        else .ok (st, [])
      match r with
      | .ok (st1, ems) => { status := 200, state := st1, emails := ems }
      | .error _ => { status := 400, state := st, emails := [] }

/-- Whether dispatching this event reaches a database write in the webhook
route: one of the four handled types, carrying an invoice id. -/
def eventWritesDb (event : StripeWebhookEvent) : Bool :=
  (event.type == "payment_intent.succeeded" ||
   event.type == "payment_intent.payment_failed" ||
   event.type == "payment_intent.canceled" ||
   event.type == "checkout.session.completed") &&
  event.data.metadataInvoiceId.isSome

/-- One line item of a create/update request body (validated by Joi:
description required, quantity and unitPrice positive numbers). -/
structure ItemInput where
  description : String
  quantity : ℚ
  unitPrice : ℚ
  deriving Repr, DecidableEq

/-- calculateTotal of invoices.ts:
`items.reduce((total, item) => total + item.quantity * item.unitPrice, 0)`. -/
def calculateTotal (items : List ItemInput) : ℚ :=
  items.foldl (fun total item => total + item.quantity * item.unitPrice) 0

/-- Request body accepted by updateInvoiceSchema (invoices.ts): every field
optional; items, when present, has at least one element (Joi `.min(1)`);
status, when present, is one of draft/sent/paid/overdue/cancelled. The
route destructures `clientId` away and never applies it. -/
structure UpdateInvoiceBody where
  issueDate : Option String
  dueDate : Option String
  items : Option (List ItemInput)
  status : Option String
  notes : Option String
  deriving Repr, DecidableEq

/-- The `invoiceUpdateData` set built by PUT /:id of invoices.ts: apply the
present optional fields to the invoice row, and recompute totalAmount by
calculateTotal whenever a non-empty items array is supplied. -/
def applyUpdateFields (body : UpdateInvoiceBody) (inv : Invoice) : Invoice :=
  let inv := match body.issueDate with
    | some d => { inv with issueDate := d }
    | none => inv
  let inv := match body.dueDate with
    | some d => { inv with dueDate := d }
    | none => inv
  let inv := match body.status with
    | some s => { inv with status := s }
    | none => inv
  let inv := match body.notes with
    | some n => { inv with notes := some n }
    | none => inv
  match body.items with
  | some l =>
    if l.length > 0 then { inv with totalAmount := calculateTotal l } else inv
  | none => inv

/-- PUT /:id of invoices.ts: after the ownership check (404 when it fails),
apply the update set to the invoice row — with NO check of the current
status, in any status including 'sent' and 'paid' — then, when a non-empty
items array was supplied, delete all old items of the invoice and insert the
new ones, each with cached line total quantity*unitPrice. Returns
(HTTP status, new state). -/
def updateInvoice (st : DBState) (userId iid : Nat) (body : UpdateInvoiceBody) :
    Nat × DBState :=
  match findOwnedInvoice st userId iid with
  | none => (404, st)
  | some _ =>
    let st1 := { st with
      invoices := st.invoices.map
        (fun inv => if inv.id == iid then applyUpdateFields body inv else inv) }
    let st2 := match body.items with
      | some l =>
        if l.length > 0 then
          { st1 with
            invoiceItems :=
              st1.invoiceItems.filter (fun it => !(it.invoiceId == iid)) ++
              l.map (fun it =>
                { invoiceId := iid
                  description := it.description
                  quantity := it.quantity
                  unitPrice := it.unitPrice
                  total := it.quantity * it.unitPrice }) }
        else st1
      | none => st1
    (200, st2)

/-- Request body accepted by createInvoiceSchema (invoices.ts): clientId,
issueDate, dueDate, a non-empty items array, optional notes. The schema has
NO status field, and Joi rejects unknown keys, so a caller cannot supply a
status. -/
structure CreateInvoiceBody where
  clientId : Nat
  issueDate : String
  dueDate : String
  items : List ItemInput
  notes : Option String
  deriving Repr, DecidableEq

/-- POST / of invoices.ts: verify the client belongs to the user (404
otherwise), compute totalAmount by calculateTotal, and insert the invoice
with status hard-coded to 'draft' (currency left to its schema default
'PHP'), then insert the items with cached totals. `newId` and
`invoiceNumber` stand for the serial id and the generated number. Returns
(HTTP status, new state, the invoice row returned to the caller). -/
def createInvoice (st : DBState) (userId newId : Nat) (invoiceNumber : String)
    (body : CreateInvoiceBody) : Nat × DBState × Option Invoice :=
  match st.clients.find?
      (fun c => c.id == body.clientId && c.userId == userId) with
  | none => (404, st, none)
  | some _ =>
    let inv : Invoice :=
      { id := newId
        clientId := body.clientId
        userId := userId
        invoiceNumber := invoiceNumber
        issueDate := body.issueDate
        dueDate := body.dueDate
        totalAmount := calculateTotal body.items
        currency := "PHP"
        status := "draft"
        notes := body.notes }
    let newItems := body.items.map (fun it =>
      { invoiceId := newId
        description := it.description
        quantity := it.quantity
        unitPrice := it.unitPrice
        total := it.quantity * it.unitPrice : InvoiceItem })
    (201,
     { st with
       invoices := st.invoices ++ [inv]
       invoiceItems := st.invoiceItems ++ newItems },
     some inv)

/-- PATCH /:id/pay of invoices.ts: after the ownership join (404 when it
fails), unconditionally set the invoice's status to 'paid' — no current
status check, no amount verification, and no synthesized PaymentEvent: this
is a code path of its own, separate from the webhook handlers. Then look up
the client's first project for the currency ('USD' when none) and, when the
client has an email, send a confirmation email whose amount is the invoice's
stored totalAmount and whose payment method is 'Manual Payment Processing'.
Email failures are swallowed. -/
def markInvoicePaid (st : DBState) (userId iid : Nat) : RouteResult :=
  match findOwnedInvoice st userId iid with
  | none => { status := 404, state := st, emails := [] }
  | some (inv, c) =>
    let st1 := setInvoiceStatus st iid "paid"
    let currency :=
      match st.projects.find? (fun p => p.clientId == c.id) with
      | some p => p.currency
      | none => "USD"
    let ems : List ConfirmationEmail :=
      match c.email with
      | none => []
      | some addr =>
        [{ recipient := addr
           invoiceNumber := inv.invoiceNumber
           clientName := c.clientName
           amountPaid := toString inv.totalAmount
           paymentMethod := "Manual Payment Processing"
           currency := currency }]
    { status := 200, state := st1, emails := ems }

/-- The status of invoice `iid` as stored in `st`, when the invoice exists. -/
def statusOf (st : DBState) (iid : Nat) : Option String :=
  (findInvoice st iid).map (fun inv => inv.status)

/-- sum of quantity*unitPrice over stored invoice items. -/
def sumItems (items : List InvoiceItem) : ℚ :=
  items.foldl (fun total it => total + it.quantity * it.unitPrice) 0

/-! Concrete fixtures used by counterexamples and witnesses. -/

/-- A client (id 7, owned by user 10) with an email address on file. -/
def clientA : Client :=
  { id := 7, userId := 10, clientName := "Acme", email := some "billing@acme.test" }

/-- Invoice 1 of client 7: status 'sent', total 150 (PHP). -/
def invoiceSent : Invoice :=
  { id := 1, clientId := 7, userId := 10, invoiceNumber := "INV-1001"
    issueDate := "2025-01-01", dueDate := "2025-02-01"
    totalAmount := 150, currency := "PHP", status := "sent", notes := none }

/-- Database with the sent invoice, its client, and one PHP project. -/
def stWebhook : DBState :=
  { invoices := [invoiceSent], invoiceItems := [], clients := [clientA]
    projects := [{ id := 3, clientId := 7, currency := "PHP" }] }

/-- A payment_intent.succeeded event for invoice 1, amount 15000 cents PHP
(exactly the invoice total of 150.00). -/
def evSucc : StripeWebhookEvent :=
  { id := "evt_1", type := "payment_intent.succeeded"
    data := { metadataInvoiceId := some 1, paymentIntentId := "pi_1"
              objStatus := "succeeded", amount := 15000, currency := "php"
              amountTotal := 15000 } }

/-- Same database but invoice 1 already 'paid'. -/
def stPaid : DBState :=
  { stWebhook with invoices := [{ invoiceSent with status := "paid" }] }

/-- Same database but invoice 1 still 'draft'. -/
def stDraft : DBState :=
  { stWebhook with invoices := [{ invoiceSent with status := "draft" }] }

/-- A payment_intent.payment_failed event for invoice 1 (an older attempt). -/
def evFailed : StripeWebhookEvent :=
  { id := "evt_2", type := "payment_intent.payment_failed"
    data := { metadataInvoiceId := some 1, paymentIntentId := "pi_0"
              objStatus := "requires_payment_method", amount := 15000
              currency := "php", amountTotal := 15000 } }

/-- A succeeded event whose amount (10000 cents = 100.00) differs from the
invoice total of 150.00. -/
def evSuccMismatch : StripeWebhookEvent :=
  { id := "evt_3", type := "payment_intent.succeeded"
    data := { metadataInvoiceId := some 1, paymentIntentId := "pi_2"
              objStatus := "succeeded", amount := 10000, currency := "php"
              amountTotal := 10000 } }

/-- Database for the currency claim: client 1 (user 10) with three projects,
currencies USD, PHP, PHP — the majority currency is PHP but the first-listed
project's currency is USD. -/
def stMajority : DBState :=
  { invoices := [{ id := 1, clientId := 1, userId := 10
                   invoiceNumber := "INV-9", issueDate := "2025-01-01"
                   dueDate := "2025-02-01", totalAmount := 40, currency := "PHP"
                   status := "sent", notes := none }]
    invoiceItems := []
    clients := [{ id := 1, userId := 10, clientName := "Majo"
                  email := some "majo@example.test" }]
    projects := [{ id := 1, clientId := 1, currency := "USD" },
                 { id := 2, clientId := 1, currency := "PHP" },
                 { id := 3, clientId := 1, currency := "PHP" }] }

/-- Database for the item-edit claim: invoice 1 has left 'draft' (status
'sent') with one stored item 1 × 100 and total 100. -/
def stItems : DBState :=
  { invoices := [{ invoiceSent with totalAmount := 100 }]
    invoiceItems := [{ invoiceId := 1, description := "work"
                       quantity := 1, unitPrice := 100, total := 100 }]
    clients := [clientA], projects := [] }

/-- An update request body editing the items of the invoice to 1 × 999. -/
def bodyItems999 : UpdateInvoiceBody :=
  { issueDate := none, dueDate := none
    items := some [{ description := "work", quantity := 1, unitPrice := 999 }]
    status := none, notes := none }

/-- A create request for client 7 with two line items (no status field can
appear: createInvoiceSchema has none and Joi rejects unknown keys). -/
def bodyCreate : CreateInvoiceBody :=
  { clientId := 7, issueDate := "2025-03-01", dueDate := "2025-04-01"
    items := [{ description := "design", quantity := 2, unitPrice := 50 },
              { description := "dev", quantity := 10, unitPrice := 40 }]
    notes := some "net 30" }

/-! Helper lemmas about the table-update embedding. -/

/-- A row update keyed on the invoice id commutes with the `limit 1` lookup,
provided the update preserves the id. -/
theorem find?_rowUpdate (l : List Invoice) (iid : Nat) (f : Invoice → Invoice)
    (hf : ∀ inv, (f inv).id = inv.id) :
    (l.map (fun inv => if inv.id == iid then f inv else inv)).find?
        (fun inv => inv.id == iid) =
      (l.find? (fun inv => inv.id == iid)).map f := by
  induction l with
  | nil => rfl
  | cons a l ih =>
    by_cases h : (a.id == iid) = true
    · have hfa : ((f a).id == iid) = true := by rw [hf]; exact h
      have e1 : (if (a.id == iid) = true then f a else a) = f a := if_pos h
      rw [List.map_cons, e1,
        @List.find?_cons_of_pos _ (fun inv => inv.id == iid) (f a) _ hfa,
        @List.find?_cons_of_pos _ (fun inv => inv.id == iid) a _ h]
      rfl
    · have e1 : (if (a.id == iid) = true then f a else a) = a := if_neg h
      rw [List.map_cons, e1,
        @List.find?_cons_of_neg _ (fun inv => inv.id == iid) a _ h,
        @List.find?_cons_of_neg _ (fun inv => inv.id == iid) a _ h, ih]

/-- Looking an invoice up after its status write returns the updated row. -/
theorem findInvoice_setInvoiceStatus (st : DBState) (iid : Nat) (s : String) :
    findInvoice (setInvoiceStatus st iid s) iid =
      (findInvoice st iid).map (fun inv => { inv with status := s }) := by
  unfold findInvoice setInvoiceStatus
  exact find?_rowUpdate st.invoices iid _ (fun _ => rfl)

/-- The status read back after a status write is the written value. -/
theorem statusOf_setInvoiceStatus (st : DBState) (iid : Nat) (s : String)
    (inv : Invoice) (h : findInvoice st iid = some inv) :
    statusOf (setInvoiceStatus st iid s) iid = some s := by
  unfold statusOf
  rw [findInvoice_setInvoiceStatus, h]
  rfl

/-- Writing the same status twice is the same write once. -/
theorem setInvoiceStatus_idem (st : DBState) (iid : Nat) (s : String) :
    setInvoiceStatus (setInvoiceStatus st iid s) iid s =
      setInvoiceStatus st iid s := by
  unfold setInvoiceStatus
  simp only [List.map_map]
  congr 1
  apply List.map_congr_left
  intro inv _
  by_cases h : inv.id == iid <;> simp [Function.comp, h]

/-- C5 — Signature-first, state untouched on rejection: whenever the
stripe-signature header is missing or signature verification over the raw
body fails (throws), the webhook endpoint answers 400 with the database
state exactly as before and no confirmation email dispatched; no business
logic runs. -/
theorem signature_rejection_leaves_state_untouched (dbFail : Bool)
    (st : DBState) (sig : Option String) (vr : VerifyResult)
    (h : sig = none ∨ ∃ msg, vr = .fail msg) :
    stripeWebhookRoute dbFail st sig vr =
      { status := 400, state := st, emails := [] } := by
  rcases h with h | ⟨msg, h⟩
  · subst h; rfl
  · subst h; cases sig <;> rfl

/-- Witness for C5: a request with no stripe-signature header is rejected
with 400, the one-invoice database unchanged and no email sent. -/
theorem signature_rejection_leaves_state_untouched_witness :
    stripeWebhookRoute false stWebhook none (.ok evSucc) =
      { status := 400, state := stWebhook, emails := [] } :=
  signature_rejection_leaves_state_untouched false stWebhook none (.ok evSucc)
    (Or.inl rfl)

/-- C10 — Every invoice produced by POST / has status 'draft': when the
client check passes, the response is 201, the returned invoice's status is
'draft', and every invoice in the resulting database either existed before
or is the new 'draft' one — the request schema offers no way to create an
invoice in any other state. -/
theorem createInvoice_always_draft (st : DBState) (uid newId : Nat)
    (num : String) (body : CreateInvoiceBody) (cl : Client)
    (hc : st.clients.find?
        (fun c => c.id == body.clientId && c.userId == uid) = some cl) :
    (createInvoice st uid newId num body).1 = 201 ∧
    ((createInvoice st uid newId num body).2.2).map Invoice.status =
      some "draft" ∧
    ∀ inv ∈ ((createInvoice st uid newId num body).2.1).invoices,
      inv ∈ st.invoices ∨ inv.status = "draft" := by
  unfold createInvoice
  rw [hc]
  refine ⟨rfl, rfl, ?_⟩
  intro inv hmem
  simp only [List.mem_append, List.mem_singleton] at hmem
  rcases hmem with hmem | hmem
  · exact Or.inl hmem
  · right; rw [hmem]

/-- Witness for C10: creating an invoice for client 7 from a concrete
two-item request yields 201 and a 'draft' invoice. -/
theorem createInvoice_always_draft_witness :
    (createInvoice stWebhook 10 2 "INV-2002" bodyCreate).1 = 201 ∧
    ((createInvoice stWebhook 10 2 "INV-2002" bodyCreate).2.2).map
      Invoice.status = some "draft" ∧
    ∀ inv ∈ ((createInvoice stWebhook 10 2 "INV-2002" bodyCreate).2.1).invoices,
      inv ∈ stWebhook.invoices ∨ inv.status = "draft" :=
  createInvoice_always_draft stWebhook 10 2 "INV-2002" bodyCreate clientA rfl

/-- C9 counterexample — the resolved currency is NOT the majority currency:
for client 1 whose projects carry currencies USD, PHP, PHP (majority PHP),
the manual mark-paid path emails with currency USD (the first-listed
project), differing from the spec's majority policy. -/
theorem resolved_currency_not_majority :
    (markInvoicePaid stMajority 10 1).emails.map ConfirmationEmail.currency =
      ["USD"] ∧
    majorityCurrencySpec (clientProjectCurrencies stMajority 1) "USD" = "PHP" ∧
    ("USD" : String) ≠ "PHP" := by
  refine ⟨rfl, rfl, by decide⟩

/-- C9 amended — the currency used in the payment-confirmation email of the
manual mark-paid operation is the currency of the client's first-listed
project, with fallback 'USD' when the client has no projects (not the
majority currency). -/
theorem markPaid_email_currency_first_project (st : DBState) (uid iid : Nat)
    (inv : Invoice) (cl : Client) (addr : String)
    (hown : findOwnedInvoice st uid iid = some (inv, cl))
    (hemail : cl.email = some addr) :
    (markInvoicePaid st uid iid).emails.map ConfirmationEmail.currency =
      [resolveFirstProjectCurrency st cl.id] := by
  unfold markInvoicePaid resolveFirstProjectCurrency
  rw [hown]
  simp only [hemail]
  cases st.projects.find? (fun p => p.clientId == cl.id) <;> rfl

/-- Witness for C9 amended: in the three-project database the email currency
equals the first project's currency. -/
theorem markPaid_email_currency_first_project_witness :
    (markInvoicePaid stMajority 10 1).emails.map ConfirmationEmail.currency =
      [resolveFirstProjectCurrency stMajority 1] :=
  markPaid_email_currency_first_project stMajority 10 1
    { id := 1, clientId := 1, userId := 10, invoiceNumber := "INV-9"
      issueDate := "2025-01-01", dueDate := "2025-02-01", totalAmount := 40
      currency := "PHP", status := "sent", notes := none }
    { id := 1, userId := 10, clientName := "Majo"
      email := some "majo@example.test" }
    "majo@example.test" rfl rfl

/-- C2 counterexample — a failed event does NOT leave the status unchanged:
invoice 1 is 'paid', a payment_intent.payment_failed event for it arrives,
and the stored status becomes 'overdue', no longer 'paid'. -/
theorem failed_event_overwrites_paid_invoice :
    statusOf (stripeWebhookRoute false stPaid (some "sig") (.ok evFailed)).state
        1 = some "overdue" ∧
    statusOf (stripeWebhookRoute false stPaid (some "sig") (.ok evFailed)).state
        1 ≠ some "paid" := by
  refine ⟨rfl, by decide⟩

/-- C2 amended — failed and canceled events always overwrite the invoice
status: processing a payment_intent.payment_failed event sets the referenced
invoice's status to 'overdue', and a payment_intent.canceled event sets it to
'pending', regardless of the current status (in particular a 'paid' invoice
becomes 'overdue' on a failed event for an older attempt); only the webhook
acknowledgement, no diagnostic record, is produced. -/
theorem failed_or_canceled_event_overwrites_status (st : DBState) (sig : String)
    (ev : StripeWebhookEvent) (iid : Nat) (inv : Invoice)
    (htype : ev.type = "payment_intent.payment_failed" ∨
      ev.type = "payment_intent.canceled")
    (hm : ev.data.metadataInvoiceId = some iid)
    (hfind : findInvoice st iid = some inv) :
    statusOf (stripeWebhookRoute false st (some sig) (.ok ev)).state iid =
      some (if ev.type == "payment_intent.payment_failed" then "overdue"
            else "pending") := by
  rcases htype with htype | htype <;>
    simp only [stripeWebhookRoute, processWebhookEvent, handlePaymentFailure,
      handlePaymentCancellation, htype, hm, String.reduceBEq, String.reduceEq,
      Bool.false_eq_true, if_false, if_true, Except.map] <;>
    exact statusOf_setInvoiceStatus st iid _ inv hfind

/-- Witness for C2 amended: the 'paid' invoice of the fixture ends 'overdue'
after the concrete failed event. -/
theorem failed_or_canceled_event_overwrites_status_witness :
    statusOf (stripeWebhookRoute false stPaid (some "sig") (.ok evFailed)).state
        1 =
      some (if evFailed.type == "payment_intent.payment_failed" then "overdue"
            else "pending") :=
  failed_or_canceled_event_overwrites_status stPaid "sig" evFailed 1
    { invoiceSent with status := "paid" } (Or.inl rfl) rfl rfl

/-- C3 counterexample — the illegal draft→paid transition is not blocked:
invoice 1 is 'draft', a payment_intent.succeeded event arrives, and the
stored status becomes 'paid' instead of staying 'draft'. -/
theorem draft_invoice_succeeded_event_becomes_paid :
    statusOf (stripeWebhookRoute false stDraft (some "sig") (.ok evSucc)).state
        1 = some "paid" ∧
    statusOf (stripeWebhookRoute false stDraft (some "sig") (.ok evSucc)).state
        1 ≠ some "draft" := by
  refine ⟨rfl, by decide⟩

/-- C3 amended — a succeeded event sets the referenced invoice's status to
'paid' whatever the current status is, including 'draft': there is no state
machine, no IllegalTransition record, and the draft invoice does not stay
'draft'. -/
theorem succeeded_event_sets_paid_even_from_draft (st : DBState) (sig : String)
    (ev : StripeWebhookEvent) (iid : Nat) (inv : Invoice)
    (htype : ev.type = "payment_intent.succeeded")
    (hm : ev.data.metadataInvoiceId = some iid)
    (hfind : findInvoice st iid = some inv)
    (hdraft : inv.status = "draft") :
    statusOf (stripeWebhookRoute false st (some sig) (.ok ev)).state iid =
      some "paid" ∧ some "paid" ≠ some inv.status := by
  constructor
  · simp only [stripeWebhookRoute, processWebhookEvent, handlePaymentSuccess,
      htype, hm, String.reduceBEq, String.reduceEq, Bool.false_eq_true,
      if_false, if_true]
    exact statusOf_setInvoiceStatus st iid _ inv hfind
  · rw [hdraft]; decide

/-- Witness for C3 amended: the concrete 'draft' invoice becomes 'paid'. -/
theorem succeeded_event_sets_paid_even_from_draft_witness :
    statusOf (stripeWebhookRoute false stDraft (some "sig") (.ok evSucc)).state
        1 = some "paid" ∧
    some "paid" ≠ some ({ invoiceSent with status := "draft" } : Invoice).status :=
  succeeded_event_sets_paid_even_from_draft stDraft "sig" evSucc 1
    { invoiceSent with status := "draft" } rfl rfl rfl rfl

/-- C4 counterexample — the amount/currency guard does not exist: invoice 1
has total 150.00 PHP, the succeeded event carries only 10000 cents (100.00),
yet the invoice still transitions to 'paid' and the event is acknowledged
with 200 rather than being recorded as AmountMismatch. -/
theorem amount_mismatch_event_still_marks_paid :
    statusOf (stripeWebhookRoute false stWebhook (some "sig")
        (.ok evSuccMismatch)).state 1 = some "paid" ∧
    (stripeWebhookRoute false stWebhook (some "sig")
        (.ok evSuccMismatch)).status = 200 ∧
    (evSuccMismatch.data.amount : ℚ) / 100 ≠ invoiceSent.totalAmount := by
  refine ⟨rfl, rfl, by norm_num [evSuccMismatch, invoiceSent]⟩

/-- C4 amended — no amount or currency comparison happens anywhere in the
webhook path: any payment_intent.succeeded or checkout.session.completed
event that resolves to an existing invoice sets its status to 'paid' and is
acknowledged with 200, for every event amount and currency — mismatched
events included. -/
theorem no_amount_or_currency_guard (st : DBState) (sig : String)
    (ev : StripeWebhookEvent) (iid : Nat) (inv : Invoice)
    (htype : ev.type = "payment_intent.succeeded" ∨
      ev.type = "checkout.session.completed")
    (hm : ev.data.metadataInvoiceId = some iid)
    (hfind : findInvoice st iid = some inv) :
    statusOf (stripeWebhookRoute false st (some sig) (.ok ev)).state iid =
      some "paid" ∧
    (stripeWebhookRoute false st (some sig) (.ok ev)).status = 200 := by
  rcases htype with htype | htype <;>
    simp only [stripeWebhookRoute, processWebhookEvent, handlePaymentSuccess,
      handleCheckoutSessionCompleted, htype, hm, String.reduceBEq,
      String.reduceEq, Bool.false_eq_true, if_false, if_true] <;>
    exact ⟨statusOf_setInvoiceStatus st iid _ inv hfind, by trivial⟩

/-- Witness for C4 amended: the mismatched-amount event on the fixture
database marks invoice 1 'paid' with a 200 acknowledgement. -/
theorem no_amount_or_currency_guard_witness :
    statusOf (stripeWebhookRoute false stWebhook (some "sig")
        (.ok evSuccMismatch)).state 1 = some "paid" ∧
    (stripeWebhookRoute false stWebhook (some "sig")
        (.ok evSuccMismatch)).status = 200 :=
  no_amount_or_currency_guard stWebhook "sig" evSuccMismatch 1 invoiceSent
    (Or.inl rfl) rfl rfl

/-- C1 counterexample — replay is not deduplicated: delivering the same
succeeded event (same event id "evt_1") twice dispatches two confirmation
emails in total, not one; the status ends at 'paid' both times. There is no
processed-event log anywhere in the route. -/
theorem replay_redelivers_confirmation_email :
    ((stripeWebhookRoute false stWebhook (some "sig") (.ok evSucc)).emails ++
      (stripeWebhookRoute false
        (stripeWebhookRoute false stWebhook (some "sig") (.ok evSucc)).state
        (some "sig") (.ok evSucc)).emails).length = 2 ∧
    statusOf (stripeWebhookRoute false
        (stripeWebhookRoute false stWebhook (some "sig") (.ok evSucc)).state
        (some "sig") (.ok evSucc)).state 1 = some "paid" := by
  exact ⟨rfl, rfl⟩

/-- C1 amended — replaying a delivery returns the identical result again:
the database state does not move further (the status write is idempotent),
but the emails field of the replayed call equals that of the first call, so
a confirmation email dispatched on the first delivery is dispatched again on
every redelivery — there is no dedup guard suppressing it. -/
theorem webhook_replay_same_result_resends_email (st : DBState)
    (sig : Option String) (vr : VerifyResult) :
    stripeWebhookRoute false
        (stripeWebhookRoute false st sig vr).state sig vr =
      stripeWebhookRoute false st sig vr := by
  cases sig with
  | none => rfl
  | some s =>
    cases vr with
    | fail m => rfl
    | ok ev =>
      by_cases h1 : (ev.type == "payment_intent.succeeded") = true
      · cases hm : ev.data.metadataInvoiceId <;>
          simp only [stripeWebhookRoute, processWebhookEvent,
            handlePaymentSuccess, h1, Bool.false_eq_true, if_false, if_true,
            hm, setInvoiceStatus_idem]
      · rw [Bool.not_eq_true] at h1
        by_cases h2 : (ev.type == "payment_intent.payment_failed") = true
        · cases hm : ev.data.metadataInvoiceId <;>
            simp only [stripeWebhookRoute, processWebhookEvent,
              handlePaymentFailure, Except.map, h1, h2, Bool.false_eq_true,
              if_false, if_true, hm, setInvoiceStatus_idem]
        · rw [Bool.not_eq_true] at h2
          by_cases h3 : (ev.type == "payment_intent.canceled") = true
          · cases hm : ev.data.metadataInvoiceId <;>
              simp only [stripeWebhookRoute, processWebhookEvent,
                handlePaymentCancellation, Except.map, h1, h2, h3,
                Bool.false_eq_true, if_false, if_true, hm,
                setInvoiceStatus_idem]
          · rw [Bool.not_eq_true] at h3
            by_cases h4 : (ev.type == "checkout.session.completed") = true
            · cases hm : ev.data.metadataInvoiceId <;>
                simp only [stripeWebhookRoute, processWebhookEvent,
                  handleCheckoutSessionCompleted, h1, h2, h3, h4,
                  Bool.false_eq_true, if_false, if_true, hm,
                  setInvoiceStatus_idem]
            · rw [Bool.not_eq_true] at h4
              simp only [stripeWebhookRoute, processWebhookEvent, h1, h2, h3,
                h4, Bool.false_eq_true, if_false]

/-- With a valid signature and a decoded event, the response code is 400
exactly when the event reaches a database write while the database is
failing, else 200. -/
theorem route_ok_status (dbFail : Bool) (st : DBState) (s : String)
    (ev : StripeWebhookEvent) :
    (stripeWebhookRoute dbFail st (some s) (.ok ev)).status =
      if dbFail && eventWritesDb ev then 400 else 200 := by
  by_cases h1 : (ev.type == "payment_intent.succeeded") = true
  · cases hm : ev.data.metadataInvoiceId <;> cases dbFail <;>
      simp [stripeWebhookRoute, processWebhookEvent, handlePaymentSuccess,
        eventWritesDb, h1, hm]
  · rw [Bool.not_eq_true] at h1
    by_cases h2 : (ev.type == "payment_intent.payment_failed") = true
    · cases hm : ev.data.metadataInvoiceId <;> cases dbFail <;>
        simp [stripeWebhookRoute, processWebhookEvent, handlePaymentFailure,
          Except.map, eventWritesDb, h1, h2, hm]
    · rw [Bool.not_eq_true] at h2
      by_cases h3 : (ev.type == "payment_intent.canceled") = true
      · cases hm : ev.data.metadataInvoiceId <;> cases dbFail <;>
          simp [stripeWebhookRoute, processWebhookEvent,
            handlePaymentCancellation, Except.map, eventWritesDb, h1, h2, h3,
            hm]
      · rw [Bool.not_eq_true] at h3
        by_cases h4 : (ev.type == "checkout.session.completed") = true
        · cases hm : ev.data.metadataInvoiceId <;> cases dbFail <;>
            simp [stripeWebhookRoute, processWebhookEvent,
              handleCheckoutSessionCompleted, eventWritesDb, h1, h2, h3, h4,
              hm]
        · rw [Bool.not_eq_true] at h4
          simp [stripeWebhookRoute, processWebhookEvent, eventWritesDb, h1,
            h2, h3, h4]

/-- C6 counterexample — a genuine persistence failure is answered 400, not
500: with a present signature header and a verified succeeded event, the
database update throwing makes the route's catch answer 400. -/
theorem persistence_failure_answers_400_not_500 :
    (stripeWebhookRoute true stWebhook (some "sig") (.ok evSucc)).status =
      400 ∧
    (stripeWebhookRoute true stWebhook (some "sig") (.ok evSucc)).status ≠
      500 := by
  refine ⟨rfl, fun h => ?_⟩
  rw [(rfl :
    (stripeWebhookRoute true stWebhook (some "sig") (.ok evSucc)).status =
      400)] at h
  exact (by norm_num : (400 : Nat) ≠ 500) h

/-- C6 amended — the webhook endpoint answers only 200 or 400 and never 500:
400 exactly when the signature header is missing, signature verification
fails, or processing throws (a database write failing — which the spec calls
a genuine persistence failure and expects to be a 500); 200 in every other
case, orphaned and mismatched events included. -/
theorem webhook_codes_400_or_200_never_500 (dbFail : Bool) (st : DBState)
    (sig : Option String) (vr : VerifyResult) :
    ((stripeWebhookRoute dbFail st sig vr).status = 200 ∨
      (stripeWebhookRoute dbFail st sig vr).status = 400) ∧
    (stripeWebhookRoute dbFail st sig vr).status ≠ 500 ∧
    ((stripeWebhookRoute dbFail st sig vr).status = 400 ↔
      sig = none ∨ (∃ m, vr = .fail m) ∨
      ∃ ev, vr = .ok ev ∧ dbFail = true ∧ eventWritesDb ev = true) := by
  cases sig with
  | none =>
    refine ⟨Or.inr rfl, by simp [stripeWebhookRoute], ?_⟩
    simp [stripeWebhookRoute]
  | some s =>
    cases vr with
    | fail m =>
      refine ⟨Or.inr rfl, by simp [stripeWebhookRoute], ?_⟩
      simp [stripeWebhookRoute]
    | ok ev =>
      rw [route_ok_status]
      cases hdb : dbFail with
      | false => simp
      | true =>
        cases hw : eventWritesDb ev with
        | false => simp [hw]
        | true => simp [hw]

/-- C7 counterexample — the manual mark-paid operation and the webhook
succeeded path are two different code paths with different notification
effects: on the same database and same invoice the manual path emails
payment method 'Manual Payment Processing' while the webhook path emails
'Credit Card', so the dispatched notifications differ. -/
theorem manual_and_webhook_paths_send_different_emails :
    (markInvoicePaid stWebhook 10 1).emails.map
        ConfirmationEmail.paymentMethod = ["Manual Payment Processing"] ∧
    (stripeWebhookRoute false stWebhook (some "sig") (.ok evSucc)).emails.map
        ConfirmationEmail.paymentMethod = ["Credit Card"] ∧
    (markInvoicePaid stWebhook 10 1).emails.map
        ConfirmationEmail.paymentMethod ≠
      (stripeWebhookRoute false stWebhook (some "sig") (.ok evSucc)).emails.map
        ConfirmationEmail.paymentMethod := by
  refine ⟨rfl, rfl, by decide⟩

/-- C7 amended — the two paths do coincide on the stored state: whenever the
invoice exists and passes the ownership check, the manual mark-paid
operation and the webhook processing of a succeeded event for the same
invoice leave the database in exactly the same state (both unconditionally
write status 'paid' with no guards); only their notification payloads and
code paths differ. -/
theorem manual_pay_and_webhook_same_status_effect (st : DBState)
    (uid iid : Nat) (sig : String) (ev : StripeWebhookEvent)
    (inv : Invoice) (cl : Client)
    (htype : ev.type = "payment_intent.succeeded")
    (hm : ev.data.metadataInvoiceId = some iid)
    (hown : findOwnedInvoice st uid iid = some (inv, cl)) :
    (markInvoicePaid st uid iid).state =
      (stripeWebhookRoute false st (some sig) (.ok ev)).state := by
  simp only [markInvoicePaid, hown, stripeWebhookRoute, processWebhookEvent,
    handlePaymentSuccess, htype, hm, String.reduceBEq, String.reduceEq,
    Bool.false_eq_true, if_false, if_true]

/-- Witness for C7 amended: on the fixture database both paths leave invoice
1 in the same state. -/
theorem manual_pay_and_webhook_same_status_effect_witness :
    (markInvoicePaid stWebhook 10 1).state =
      (stripeWebhookRoute false stWebhook (some "sig") (.ok evSucc)).state :=
  manual_pay_and_webhook_same_status_effect stWebhook 10 1 "sig" evSucc
    invoiceSent clientA rfl rfl rfl

/-- The PUT /:id update set never changes the invoice's id. -/
theorem applyUpdateFields_id (body : UpdateInvoiceBody) (inv : Invoice) :
    (applyUpdateFields body inv).id = inv.id := by
  unfold applyUpdateFields
  cases body.issueDate <;> cases body.dueDate <;> cases body.status <;>
    cases body.notes <;> cases body.items <;>
    first
      | rfl
      | (rename_i l; by_cases h : l.length > 0 <;> simp [h])

/-- When a non-empty items array is supplied, the update set rewrites
totalAmount to calculateTotal of the new items. -/
theorem applyUpdateFields_totalAmount (body : UpdateInvoiceBody)
    (inv : Invoice) (l : List ItemInput) (hl : body.items = some l)
    (hpos : l.length > 0) :
    (applyUpdateFields body inv).totalAmount = calculateTotal l := by
  unfold applyUpdateFields
  simp only [hl, if_pos hpos]

/-- Rows removed by a delete keyed on a predicate never reappear in a lookup
by the same predicate. -/
theorem filter_not_filter {α} (p : α → Bool) (l : List α) :
    (l.filter (fun a => !(p a))).filter p = [] := by
  induction l with
  | nil => rfl
  | cons a l ih =>
    by_cases h : p a = true <;> simp [List.filter_cons, h, ih]

/-- The quantity×unitPrice sum over freshly inserted items equals
calculateTotal of the request items they were built from. -/
theorem sumItems_map_items (l : List ItemInput) (iid : Nat) :
    sumItems (l.map (fun it =>
      ({ invoiceId := iid, description := it.description
         quantity := it.quantity, unitPrice := it.unitPrice
         total := it.quantity * it.unitPrice } : InvoiceItem))) =
      calculateTotal l := by
  unfold sumItems calculateTotal
  rw [List.foldl_map]

/-- C8 counterexample — item edits are NOT rejected once the status has left
'draft': invoice 1 has status 'sent' and total 100, yet PUT /:id with a new
1 × 999 item answers 200 and changes the stored total to 999 — the sent
invoice's total is not immutable. -/
theorem sent_invoice_item_edit_accepted :
    (updateInvoice stItems 10 1 bodyItems999).1 = 200 ∧
    (findInvoice (updateInvoice stItems 10 1 bodyItems999).2 1).map
      Invoice.totalAmount = some 999 ∧
    some (999 : ℚ) ≠ some (100 : ℚ) := by
  refine ⟨rfl, ?_, by norm_num⟩
  show some ((applyUpdateFields bodyItems999
    { invoiceSent with totalAmount := 100 }).totalAmount) = some 999
  rw [applyUpdateFields_totalAmount bodyItems999 _ _ rfl (by norm_num)]
  show some ((0 : ℚ) + 1 * 999) = some 999
  norm_num

/-- C8 amended — the update operation accepts item edits in every status (no
draft-only restriction), and every item mutation re-establishes the total
invariant: after an update carrying a non-empty items array the stored items
are exactly the request items with cached totals quantity×unitPrice, the
invoice's totalAmount is calculateTotal of them, and the sum of
quantity×unitPrice over the stored items equals that totalAmount. -/
theorem item_edit_recomputes_total (st : DBState) (uid iid : Nat)
    (body : UpdateInvoiceBody) (l : List ItemInput) (p : Invoice × Client)
    (hl : body.items = some l) (hne : l ≠ [])
    (hown : findOwnedInvoice st uid iid = some p) :
    (updateInvoice st uid iid body).1 = 200 ∧
    itemsOf (updateInvoice st uid iid body).2 iid =
      l.map (fun it =>
        { invoiceId := iid, description := it.description
          quantity := it.quantity, unitPrice := it.unitPrice
          total := it.quantity * it.unitPrice }) ∧
    (findInvoice (updateInvoice st uid iid body).2 iid).map
        Invoice.totalAmount =
      (findInvoice st iid).map (fun _ => calculateTotal l) ∧
    sumItems (itemsOf (updateInvoice st uid iid body).2 iid) =
      calculateTotal l := by
  have hpos : l.length > 0 := List.length_pos.mpr hne
  have hstep :
      updateInvoice st uid iid body =
        (200,
         { st with
           invoices := st.invoices.map
             (fun inv => if inv.id == iid then applyUpdateFields body inv
               else inv)
           invoiceItems :=
             st.invoiceItems.filter (fun it => !(it.invoiceId == iid)) ++
             l.map (fun it =>
               { invoiceId := iid, description := it.description
                 quantity := it.quantity, unitPrice := it.unitPrice
                 total := it.quantity * it.unitPrice }) }) := by
    unfold updateInvoice
    rw [hown]
    simp only [hl, if_pos hpos]
  rw [hstep]
  have hitems :
      itemsOf
        { st with
          invoices := st.invoices.map
            (fun inv => if inv.id == iid then applyUpdateFields body inv
              else inv)
          invoiceItems :=
            st.invoiceItems.filter (fun it => !(it.invoiceId == iid)) ++
            l.map (fun it =>
              { invoiceId := iid, description := it.description
                quantity := it.quantity, unitPrice := it.unitPrice
                total := it.quantity * it.unitPrice }) } iid =
      l.map (fun it =>
        { invoiceId := iid, description := it.description
          quantity := it.quantity, unitPrice := it.unitPrice
          total := it.quantity * it.unitPrice }) := by
    unfold itemsOf
    rw [List.filter_append, filter_not_filter, List.nil_append,
      List.filter_eq_self.mpr]
    intro a ha
    simp only [List.mem_map] at ha
    obtain ⟨x, _, rfl⟩ := ha
    simp
  refine ⟨rfl, hitems, ?_, ?_⟩
  · unfold findInvoice
    rw [find?_rowUpdate st.invoices iid _ (applyUpdateFields_id body)]
    cases hfind : List.find? (fun inv => inv.id == iid) st.invoices with
    | none => rfl
    | some invFound =>
      show some ((applyUpdateFields body invFound).totalAmount) =
        some (calculateTotal l)
      rw [applyUpdateFields_totalAmount body invFound l hl hpos]
  · rw [hitems, sumItems_map_items]

/-- Witness for C8 amended: the concrete 1 × 999 edit on the 'sent' invoice
lands with recomputed totals. -/
theorem item_edit_recomputes_total_witness :
    (updateInvoice stItems 10 1 bodyItems999).1 = 200 ∧
    itemsOf (updateInvoice stItems 10 1 bodyItems999).2 1 =
      ([{ description := "work", quantity := 1, unitPrice := 999 }] : List ItemInput).map
        (fun it =>
          { invoiceId := 1, description := it.description
            quantity := it.quantity, unitPrice := it.unitPrice
            total := it.quantity * it.unitPrice }) ∧
    (findInvoice (updateInvoice stItems 10 1 bodyItems999).2 1).map
        Invoice.totalAmount =
      (findInvoice stItems 1).map
        (fun _ => calculateTotal
          ([{ description := "work", quantity := 1, unitPrice := 999 }] : List ItemInput)) ∧
    sumItems (itemsOf (updateInvoice stItems 10 1 bodyItems999).2 1) =
      calculateTotal
        ([{ description := "work", quantity := 1, unitPrice := 999 }] : List ItemInput) :=
  item_edit_recomputes_total stItems 10 1 bodyItems999
    ([{ description := "work", quantity := 1, unitPrice := 999 }] : List ItemInput)
    ({ invoiceSent with totalAmount := 100 }, clientA) rfl
    (by simp) rfl

end Portal
